import Mathlib

/-!
Verification of the whop-lead-engine repository: a shallow embedding of the
Express auth server (signup / login / health), the frontend fetch wrapper
`apiRequest`, and the `sanitizeInput` utility, together with theorems that
settle the specification claims about them.
-/

namespace WhopLeadEngine

/-! ## A small JSON value model (the shape of Express/fetch JSON bodies) -/

inductive JVal where
  | str : String → JVal
  | num : Int → JVal
  | bool : Bool → JVal
  | null : JVal
  | obj : List (String × JVal) → JVal

/-- The keys of a JSON object (empty for non-objects). -/
def jKeys : JVal → List String
  | .obj l => l.map Prod.fst
  | _ => []

/-- Field lookup on a JSON object (none for non-objects / absent keys). -/
def jGet : JVal → String → Option JVal
  | .obj l, k => l.lookup k
  | _, _ => none

/-- JavaScript truthiness of a JSON value. -/
def jsTruthy : JVal → Bool
  | .str s => s != ""
  | .num n => n != 0
  | .bool b => b
  | .null => false
  | .obj _ => true

/-! ## The users table row (CREATE TABLE users in the Express server) -/

structure UserRow where
  id : Nat
  email : String
  password_hash : String
  full_name : String
  whop_community_name : Option String
  role : String
  is_active : Bool
  is_verified : Bool
  stripe_onboarding_complete : Bool
  created_at : Nat
deriving DecidableEq

/-- Abstract cryptographic primitives used by the server: bcryptjs hashing
and comparison, and jsonwebtoken signing (subject claim, expiry). -/
structure Crypto where
  bcryptHash : Nat → String → String
  bcryptCompare : String → String → Bool
  jwtSign : String → String → String

/-- JavaScript falsiness of an optional request-body string field
(`!email` is true when the field is absent or the empty string). -/
def falsy : Option String → Bool
  | none => true
  | some s => s == ""

structure SignupBody where
  email : Option String
  password : Option String
  full_name : Option String
  whop_community_name : Option String

structure LoginBody where
  email : Option String
  password : Option String

structure HttpResponse where
  status : Nat
  body : JVal

def jStrOpt : Option String → JVal
  | none => JVal.null
  | some s => JVal.str s

/-- `SELECT ... FROM users WHERE email = $1` — the row lookup both auth
endpoints perform. -/
def queryUsersByEmail (db : List UserRow) (e : String) : List UserRow :=
  db.filter (fun u => u.email == e)

def errorBody (msg : String) : JVal := JVal.obj [("error", JVal.str msg)]

/-- The fields of the user object produced by signup's RETURNING clause:
`RETURNING id, email, full_name, role, is_active, is_verified,
whop_community_name, stripe_onboarding_complete`. -/
def signupUserFields (u : UserRow) : List (String × JVal) :=
  [("id", JVal.num u.id), ("email", JVal.str u.email),
    ("full_name", JVal.str u.full_name), ("role", JVal.str u.role),
    ("is_active", JVal.bool u.is_active), ("is_verified", JVal.bool u.is_verified),
    ("whop_community_name", jStrOpt u.whop_community_name),
    ("stripe_onboarding_complete", JVal.bool u.stripe_onboarding_complete)]

def signupUserJson (u : UserRow) : JVal := JVal.obj (signupUserFields u)

/-- The fields of the user object produced by login: `SELECT *` (all
columns in table order) with `password_hash` destructured away. -/
def loginUserFields (u : UserRow) : List (String × JVal) :=
  [("id", JVal.num u.id), ("email", JVal.str u.email),
    ("full_name", JVal.str u.full_name),
    ("whop_community_name", jStrOpt u.whop_community_name),
    ("role", JVal.str u.role),
    ("is_active", JVal.bool u.is_active), ("is_verified", JVal.bool u.is_verified),
    ("stripe_onboarding_complete", JVal.bool u.stripe_onboarding_complete),
    ("created_at", JVal.num u.created_at)]

def loginUserJson (u : UserRow) : JVal := JVal.obj (loginUserFields u)

/-- The row the signup INSERT stores: request values for email,
password_hash (bcrypt with 10 salt rounds), full_name and
whop_community_name, plus the table defaults for the remaining columns. -/
def insertedRow (c : Crypto) (nextId now : Nat) (b : SignupBody) : UserRow :=
  { id := nextId, email := b.email.getD "",
    password_hash := c.bcryptHash 10 (b.password.getD ""),
    full_name := b.full_name.getD "",
    whop_community_name := b.whop_community_name,
    role := "client", is_active := true, is_verified := false,
    stripe_onboarding_complete := false, created_at := now }

/-- `POST /api/auth/signup`. State is the users table (a row list); `nextId`
models the SERIAL column's next value and `now` the CURRENT_TIMESTAMP
default. Returns the HTTP response and the updated table. -/
def signup (c : Crypto) (db : List UserRow) (nextId : Nat) (now : Nat)
    (b : SignupBody) : HttpResponse × List UserRow :=
  if falsy b.email || falsy b.password || falsy b.full_name then
    (⟨400, errorBody "Email, password, and full name are required"⟩, db)
  else
    let existing := queryUsersByEmail db (b.email.getD "")
    if existing.length > 0 then
      (⟨409, errorBody "Email already registered"⟩, db)
    else
      let newUser := insertedRow c nextId now b
      let token := c.jwtSign (toString nextId) "24h"
      (⟨201, JVal.obj [("access_token", JVal.str token),
        ("token_type", JVal.str "bearer"),
        ("user", signupUserJson newUser)]⟩, db ++ [newUser])

/-- `POST /api/auth/login`. -/
def login (c : Crypto) (db : List UserRow) (b : LoginBody) : HttpResponse :=
  if falsy b.email || falsy b.password then
    ⟨400, errorBody "Email and password are required"⟩
  else
    match queryUsersByEmail db (b.email.getD "") with
    | [] => ⟨401, errorBody "Invalid credentials"⟩
    | user :: _ =>
      if ! c.bcryptCompare (b.password.getD "") user.password_hash then
        ⟨401, errorBody "Invalid credentials"⟩
      else
        ⟨200, JVal.obj [("access_token", JVal.str (c.jwtSign (toString user.id) "24h")),
          ("token_type", JVal.str "bearer"),
          ("user", loginUserJson user)]⟩

/-- `GET /health`: `nodeEnv` models `process.env.NODE_ENV` and `now`
models `Date.now()`. -/
def health (nodeEnv : Option String) (now : Nat) : HttpResponse :=
  ⟨200, JVal.obj [("status", JVal.str "healthy"),
    ("database", JVal.str "connected"),
    ("environment", JVal.str
      (match nodeEnv with
       | some s => if s == "" then "development" else s
       | none => "development")),
    ("timestamp", JVal.num now),
    ("version", JVal.str "1.0.0")]⟩

/-! ## The frontend fetch wrapper `apiRequest` (src/lib/api.ts) -/

/-- The `APIError` thrown for non-ok HTTP responses (its message is
`data.error || 'API request failed'`, kept as a JSON value). -/
structure APIErrorModel where
  message : JVal
  status : Nat

/-- The normalized `APIResponse` value `apiRequest` resolves with. -/
structure APIResponseModel where
  success : Bool
  data : Option JVal
  error : Option String
  message : Option JVal

/-- JavaScript property read `v.k`: a TypeError on `null`, `undefined`
(`none`) on primitives and absent keys, the field value on objects. -/
def jsGet : JVal → String → Except String (Option JVal)
  | .obj l, k => .ok (l.lookup k)
  | .null, _ => .error "TypeError: Cannot read properties of null"
  | _, _ => .ok none

/-- The body of `apiRequest` after `fetch` resolved and `response.json()`
parsed: `ok` is `response.ok`, `status` is `response.status`, `body` the
parsed JSON. `Except.error` models a thrown `APIError` (rethrown by the
catch block); `Except.ok` a returned `APIResponse`. -/
def apiRequestAfterParse (ok : Bool) (status : Nat) (body : JVal) :
    Except APIErrorModel APIResponseModel :=
  if ok then
    match jsGet body "data", jsGet body "message" with
    | .ok d, .ok m =>
        let dv := match d with
          | some v => if jsTruthy v then v else body
          | none => body
        Except.ok { success := true, data := some dv, error := none, message := m }
    | .error msg, _ =>
        Except.ok { success := false, data := none, error := some msg, message := none }
    | .ok _, .error msg =>
        Except.ok { success := false, data := none, error := some msg, message := none }
  else
    match jsGet body "error" with
    | .ok e =>
        let msg := match e with
          | some v => if jsTruthy v then v else JVal.str "API request failed"
          | none => JVal.str "API request failed"
        Except.error { message := msg, status := status }
    | .error msg =>
        Except.ok { success := false, data := none, error := some msg, message := none }

/-! ## sanitizeInput (src/lib/utils.ts) -/

/-- `input.replace(/[<>]/g, '')`: remove every angle bracket. -/
def sanitizeInput (s : String) : String :=
  String.mk (s.data.filter (fun ch => ch != '<' && ch != '>'))

/-! ## Concrete fixtures used to instantiate the theorems -/

/-- A concrete instance of the cryptographic primitives, used only to
evaluate the theorems on concrete inputs. -/
def cryptoEx : Crypto :=
  { bcryptHash := fun r pw => toString r ++ "#" ++ pw,
    bcryptCompare := fun pw h => h == "10#" ++ pw,
    jwtSign := fun sub exp => sub ++ "." ++ exp }

def userEx : UserRow :=
  { id := 1, email := "a@x.com", password_hash := "10#pw", full_name := "A",
    whop_community_name := none, role := "client", is_active := true,
    is_verified := false, stripe_onboarding_complete := false, created_at := 0 }

/-- A row agreeing with `userEx` on the primary key `id` but not on
`email`. -/
def userEx2 : UserRow :=
  { userEx with email := "b@x.com" }

def sbEx : SignupBody :=
  { email := some "a@x.com", password := some "pw", full_name := some "A",
    whop_community_name := none }

def lbEx : LoginBody := { email := some "a@x.com", password := some "pw" }

def sbBad : SignupBody :=
  { email := none, password := some "pw", full_name := some "A",
    whop_community_name := none }

def lbBad : LoginBody := { email := some "a@x.com", password := none }

/-! ## Theorems -/

/-- C10: for every string s, sanitizeInput s contains no angle bracket,
its characters occur in s in the same order (its character list is a
sublist of that of s), and sanitizeInput is idempotent. -/
theorem sanitizeInput_spec (s : String) :
    ('<' ∉ (sanitizeInput s).data ∧ '>' ∉ (sanitizeInput s).data) ∧
    (sanitizeInput s).data.Sublist s.data ∧
    sanitizeInput (sanitizeInput s) = sanitizeInput s := by
  refine ⟨⟨fun h => ?_, fun h => ?_⟩, ?_, ?_⟩
  · have := List.of_mem_filter h
    simp at this
  · have := List.of_mem_filter h
    simp at this
  · exact List.filter_sublist s.data
  · show String.mk (List.filter (fun ch => ch != '<' && ch != '>')
        (List.filter (fun ch => ch != '<' && ch != '>') s.data)) =
      String.mk (List.filter (fun ch => ch != '<' && ch != '>') s.data)
    congr 1
    refine List.filter_eq_self.mpr ?_
    intro a ha
    exact (List.mem_filter.mp ha).2

/-- C7: GET /health unconditionally answers 200 with exactly the fields
status, database, environment, timestamp, version, where status is
"healthy", database is "connected" and version is "1.0.0", with no
database connectivity check involved. -/
theorem health_spec (nodeEnv : Option String) (now : Nat) :
    (health nodeEnv now).status = 200 ∧
    jKeys (health nodeEnv now).body =
      ["status", "database", "environment", "timestamp", "version"] ∧
    jGet (health nodeEnv now).body "status" = some (JVal.str "healthy") ∧
    jGet (health nodeEnv now).body "database" = some (JVal.str "connected") ∧
    jGet (health nodeEnv now).body "version" = some (JVal.str "1.0.0") := by
  refine ⟨rfl, rfl, rfl, rfl, rfl⟩

/-- C4: every signup response is either a 201 whose body has exactly the
fields access_token, token_type (equal to "bearer") and user, or a body
with the single string field error; likewise for login with 200 on
success. -/
theorem auth_response_shape (c : Crypto) (db : List UserRow) (nextId now : Nat)
    (sb : SignupBody) (lb : LoginBody) :
    (((signup c db nextId now sb).1.status = 201 ∧
      ∃ t uj, (signup c db nextId now sb).1.body =
        JVal.obj [("access_token", JVal.str t),
          ("token_type", JVal.str "bearer"), ("user", uj)]) ∨
     ∃ msg, (signup c db nextId now sb).1.body = errorBody msg) ∧
    (((login c db lb).status = 200 ∧
      ∃ t uj, (login c db lb).body =
        JVal.obj [("access_token", JVal.str t),
          ("token_type", JVal.str "bearer"), ("user", uj)]) ∨
     ∃ msg, (login c db lb).body = errorBody msg) := by
  constructor
  · simp only [signup]
    split
    · exact Or.inr ⟨_, rfl⟩
    · split
      · exact Or.inr ⟨_, rfl⟩
      · exact Or.inl ⟨rfl, _, _, rfl⟩
  · simp only [login]
    split
    · exact Or.inr ⟨_, rfl⟩
    · split
      · exact Or.inr ⟨_, rfl⟩
      · split
        · exact Or.inr ⟨_, rfl⟩
        · exact Or.inl ⟨rfl, _, _, rfl⟩

/-- C2: when the signup body carries email, password and full name and a
row with that email already exists, signup answers 409 with error
"Email already registered" and the users table is unchanged. -/
theorem signup_existing_email_409 (c : Crypto) (db : List UserRow)
    (nextId now : Nat) (b : SignupBody)
    (he : falsy b.email = false) (hp : falsy b.password = false)
    (hf : falsy b.full_name = false)
    (hex : ∃ u ∈ db, u.email = b.email.getD "") :
    signup c db nextId now b = (⟨409, errorBody "Email already registered"⟩, db) := by
  obtain ⟨u, hu, hue⟩ := hex
  have hmem : u ∈ queryUsersByEmail db (b.email.getD "") := by
    simp [queryUsersByEmail, List.mem_filter, hu, hue]
  have hlen : (queryUsersByEmail db (b.email.getD "")).length > 0 :=
    List.length_pos.mpr (List.ne_nil_of_mem hmem)
  simp [signup, he, hp, hf, hlen]

/-- C3: when the login body carries email and password and no row with
that email passes the bcrypt comparison (in particular when no such row
exists at all), login answers 401 with error "Invalid credentials". -/
theorem login_bad_credentials_401 (c : Crypto) (db : List UserRow) (b : LoginBody)
    (he : falsy b.email = false) (hp : falsy b.password = false)
    (hw : ∀ u ∈ db, u.email = b.email.getD "" →
       c.bcryptCompare (b.password.getD "") u.password_hash = false) :
    login c db b = ⟨401, errorBody "Invalid credentials"⟩ := by
  unfold login
  rw [he, hp]
  cases hq : queryUsersByEmail db (b.email.getD "") with
  | nil => simp [hq]
  | cons u rest =>
    have hu : u ∈ queryUsersByEmail db (b.email.getD "") := by
      rw [hq]; exact List.mem_cons_self u rest
    have hmf := List.mem_filter.mp hu
    have hcmp := hw u hmf.1 (by simpa using hmf.2)
    simp [hq, hcmp]

/-- C5: a successful signup appends exactly one row whose password_hash is
the bcrypt hash (10 salt rounds) of the submitted password; the inserted
row is otherwise independent of the password, so the plaintext is never
stored; the returned access_token is the JWT signed with subject the new
id (as a string) and 24-hour expiry; and login answers 200 only when the
bcrypt comparison of the submitted password against the stored hash
succeeds. -/
theorem signup_hash_token_login_compare (c : Crypto) (db : List UserRow)
    (nextId now : Nat) (b : SignupBody)
    (he : falsy b.email = false) (hp : falsy b.password = false)
    (hf : falsy b.full_name = false)
    (hnew : queryUsersByEmail db (b.email.getD "") = []) :
    (∃ u : UserRow,
      (signup c db nextId now b).2 = db ++ [u] ∧
      u.password_hash = c.bcryptHash 10 (b.password.getD "") ∧
      jGet (signup c db nextId now b).1.body "access_token" =
        some (JVal.str (c.jwtSign (toString nextId) "24h"))) ∧
    (∀ pw1 pw2 : Option String, falsy pw1 = false → falsy pw2 = false →
      ∃ u1 u2 : UserRow,
        (signup c db nextId now { b with password := pw1 }).2 = db ++ [u1] ∧
        (signup c db nextId now { b with password := pw2 }).2 = db ++ [u2] ∧
        { u1 with password_hash := "" } = { u2 with password_hash := "" }) ∧
    (∀ (db2 : List UserRow) (lb : LoginBody),
      (login c db2 lb).status = 200 →
      ∃ u rest, queryUsersByEmail db2 (lb.email.getD "") = u :: rest ∧
        c.bcryptCompare (lb.password.getD "") u.password_hash = true) := by
  refine ⟨?_, ?_, ?_⟩
  · simp only [signup, he, hp, hf, hnew]
    exact ⟨insertedRow c nextId now b, by simp, rfl, by simp [jGet]⟩
  · intro pw1 pw2 h1 h2
    simp only [signup, he, hf, h1, h2, hnew]
    refine ⟨insertedRow c nextId now { b with password := pw1 },
      insertedRow c nextId now { b with password := pw2 }, by simp, by simp, rfl⟩
  · intro db2 lb h200
    unfold login at h200
    split at h200
    · simp at h200
    · split at h200
      · simp at h200
      · next u rest hq =>
        split at h200
        · simp at h200
        · next hcmp =>
          exact ⟨u, rest, hq, by simpa using hcmp⟩

/-- C6: a signup request missing email, password or full name, and a login
request missing email or password, are answered 400 with a string error
body; every status the two auth endpoints produce lies in
{200, 201, 400, 401, 409, 500}; and every non-2xx response carries a
single string error field. -/
theorem auth_status_codes (c : Crypto) (db : List UserRow) (nextId now : Nat)
    (sb : SignupBody) (lb : LoginBody) :
    ((falsy sb.email || falsy sb.password || falsy sb.full_name) = true →
      signup c db nextId now sb =
        (⟨400, errorBody "Email, password, and full name are required"⟩, db)) ∧
    ((falsy lb.email || falsy lb.password) = true →
      login c db lb = ⟨400, errorBody "Email and password are required"⟩) ∧
    (signup c db nextId now sb).1.status ∈ ([200, 201, 400, 401, 409, 500] : List Nat) ∧
    (login c db lb).status ∈ ([200, 201, 400, 401, 409, 500] : List Nat) ∧
    (¬(200 ≤ (signup c db nextId now sb).1.status ∧
        (signup c db nextId now sb).1.status < 300) →
      ∃ msg, (signup c db nextId now sb).1.body = errorBody msg) ∧
    (¬(200 ≤ (login c db lb).status ∧ (login c db lb).status < 300) →
      ∃ msg, (login c db lb).body = errorBody msg) := by
  refine ⟨fun h => by simp [signup, h], fun h => by simp [login, h], ?_, ?_, ?_, ?_⟩
  · simp only [signup]
    split
    · simp
    · split
      · simp
      · simp
  · simp only [login]
    split
    · simp
    · split
      · simp
      · split
        · simp
        · simp
  · simp only [signup]
    split
    · exact fun _ => ⟨_, rfl⟩
    · split
      · exact fun _ => ⟨_, rfl⟩
      · intro h
        exact absurd ⟨by norm_num, by norm_num⟩ h
  · simp only [login]
    split
    · exact fun _ => ⟨_, rfl⟩
    · split
      · exact fun _ => ⟨_, rfl⟩
      · split
        · exact fun _ => ⟨_, rfl⟩
        · intro h
          exact absurd ⟨by norm_num, by norm_num⟩ h

/-- C9: every successful signup (201) and login (200) response carries a
user object with no password_hash field: the RETURNING clause excludes it
and login destructures it away, so the stored bcrypt hash appears in no
response body. -/
theorem no_password_hash_in_user (c : Crypto) (db : List UserRow)
    (nextId now : Nat) (sb : SignupBody) (lb : LoginBody) :
    ((signup c db nextId now sb).1.status = 201 →
      ∃ l, jGet (signup c db nextId now sb).1.body "user" = some (JVal.obj l) ∧
        "password_hash" ∉ l.map Prod.fst) ∧
    ((login c db lb).status = 200 →
      ∃ l, jGet (login c db lb).body "user" = some (JVal.obj l) ∧
        "password_hash" ∉ l.map Prod.fst) := by
  constructor
  · simp only [signup]
    split
    · intro h
      simp at h
    · split
      · intro h
        simp at h
      · intro _
        refine ⟨signupUserFields (insertedRow c nextId now sb), rfl, ?_⟩
        show "password_hash" ∉ ["id", "email", "full_name", "role", "is_active",
          "is_verified", "whop_community_name", "stripe_onboarding_complete"]
        decide
  · simp only [login]
    split
    · intro h
      simp at h
    · split
      · intro h
        simp at h
      · split
        · intro h
          simp at h
        · intro _
          refine ⟨_, rfl, ?_⟩
          show "password_hash" ∉ ["id", "email", "full_name", "whop_community_name",
            "role", "is_active", "is_verified", "stripe_onboarding_complete", "created_at"]
          decide

/-- C1 counterexample: on a received, JSON-parsed response with
response.ok false (status 404, object body with an error field),
apiRequest does not return a success false APIResponse — it throws an
APIError (modelled by Except.error) built from the body error string and
the status. -/
theorem apiRequest_nonok_throws_cex :
    apiRequestAfterParse false 404 (JVal.obj [("error", JVal.str "boom")]) =
      Except.error { message := JVal.str "boom", status := 404 } := rfl

/-- C1 amended: for every call whose response body parses to a JSON
object, apiRequest returns a success true APIResponse (no error field)
when response.ok holds, and throws an APIError carrying the response
status when response.ok does not hold. -/
theorem apiRequest_ok_or_throw (ok : Bool) (st : Nat)
    (fields : List (String × JVal)) :
    (ok = true → ∃ r, apiRequestAfterParse ok st (JVal.obj fields) = Except.ok r ∧
      r.success = true ∧ r.error = none) ∧
    (ok = false → ∃ e, apiRequestAfterParse ok st (JVal.obj fields) = Except.error e ∧
      e.status = st) := by
  constructor
  · rintro rfl
    exact ⟨_, rfl, rfl, rfl⟩
  · rintro rfl
    exact ⟨_, rfl, rfl⟩

/-- C8 counterexample: the rows both auth endpoints retrieve are not
determined by the primary key (the id column): no predicate on the
request and the id column reproduces the WHERE email = $1 lookup, since
two rows agreeing on id but not on email are told apart by it. -/
theorem query_not_by_primary_key_cex :
    ¬ ∃ f : String → Nat → Bool, ∀ (db : List UserRow) (e : String),
      queryUsersByEmail db e = db.filter (fun u => f e u.id) := by
  rintro ⟨f, hf⟩
  have h1 := hf [userEx] "a@x.com"
  have h2 := hf [userEx2] "a@x.com"
  rcases hfv : f "a@x.com" 1 with _ | _
  · simp [queryUsersByEmail, userEx, hfv] at h1
  · simp [queryUsersByEmail, userEx2, userEx, hfv] at h2

/-- C8 amended: for every signup and login request, the user record is
retrieved from the users table by querying on the unique email column
(WHERE email = $1), not on the primary key id: the retrieved rows are
exactly the stored rows whose email equals the submitted one. -/
theorem queryUsersByEmail_mem (u : UserRow) (db : List UserRow) (e : String) :
    u ∈ queryUsersByEmail db e ↔ u ∈ db ∧ u.email = e := by
  simp [queryUsersByEmail, List.mem_filter]

/-! ## Witnesses: the theorems evaluated at concrete inputs -/

/-- Witness for C2 at a concrete table and request. -/
theorem signup_existing_email_409_w :
    signup cryptoEx [userEx] 2 0 sbEx =
      (⟨409, errorBody "Email already registered"⟩, [userEx]) :=
  signup_existing_email_409 cryptoEx [userEx] 2 0 sbEx rfl rfl rfl
    ⟨userEx, by decide, rfl⟩

/-- Witness for C3 at a concrete table and a wrong password. -/
theorem login_bad_credentials_401_w :
    login cryptoEx [userEx] { email := some "a@x.com", password := some "bad" } =
      ⟨401, errorBody "Invalid credentials"⟩ :=
  login_bad_credentials_401 cryptoEx [userEx]
    { email := some "a@x.com", password := some "bad" } rfl rfl (by decide)

/-- Witness for C5 at a concrete fresh signup. -/
theorem signup_hash_token_login_compare_w :
    (∃ u : UserRow,
      (signup cryptoEx [] 1 0 sbEx).2 = [] ++ [u] ∧
      u.password_hash = cryptoEx.bcryptHash 10 (sbEx.password.getD "") ∧
      jGet (signup cryptoEx [] 1 0 sbEx).1.body "access_token" =
        some (JVal.str (cryptoEx.jwtSign (toString 1) "24h"))) ∧
    (∀ pw1 pw2 : Option String, falsy pw1 = false → falsy pw2 = false →
      ∃ u1 u2 : UserRow,
        (signup cryptoEx [] 1 0 { sbEx with password := pw1 }).2 = [] ++ [u1] ∧
        (signup cryptoEx [] 1 0 { sbEx with password := pw2 }).2 = [] ++ [u2] ∧
        { u1 with password_hash := "" } = { u2 with password_hash := "" }) ∧
    (∀ (db2 : List UserRow) (lb : LoginBody),
      (login cryptoEx db2 lb).status = 200 →
      ∃ u rest, queryUsersByEmail db2 (lb.email.getD "") = u :: rest ∧
        cryptoEx.bcryptCompare (lb.password.getD "") u.password_hash = true) :=
  signup_hash_token_login_compare cryptoEx [] 1 0 sbEx rfl rfl rfl rfl

/-- Witness for C6 at concrete requests with missing fields. -/
theorem auth_status_codes_w :
    signup cryptoEx [] 1 0 sbBad =
      (⟨400, errorBody "Email, password, and full name are required"⟩, []) ∧
    login cryptoEx [] lbBad = ⟨400, errorBody "Email and password are required"⟩ :=
  ⟨(auth_status_codes cryptoEx [] 1 0 sbBad lbBad).1 rfl,
   (auth_status_codes cryptoEx [] 1 0 sbBad lbBad).2.1 rfl⟩

/-- Witness for C9 at a concrete successful signup. -/
theorem no_password_hash_in_user_w :
    ∃ l, jGet (signup cryptoEx [] 1 0 sbEx).1.body "user" = some (JVal.obj l) ∧
      "password_hash" ∉ l.map Prod.fst :=
  (no_password_hash_in_user cryptoEx [] 1 0 sbEx lbEx).1 rfl

/-- Witness for the amended C1 at concrete ok and non-ok responses. -/
theorem apiRequest_ok_or_throw_w :
    (∃ r, apiRequestAfterParse true 200 (JVal.obj []) = Except.ok r ∧
      r.success = true ∧ r.error = none) ∧
    (∃ e, apiRequestAfterParse false 404 (JVal.obj []) = Except.error e ∧
      e.status = 404) :=
  ⟨(apiRequest_ok_or_throw true 200 []).1 rfl,
   (apiRequest_ok_or_throw false 404 []).2 rfl⟩

/-- Witness for the amended C8 at a concrete table and email. -/
theorem queryUsersByEmail_mem_w :
    userEx ∈ queryUsersByEmail [userEx] "a@x.com" :=
  (queryUsersByEmail_mem userEx [userEx] "a@x.com").mpr (by decide)

end WhopLeadEngine
